import Mathlib

/-!
Verification of the majerus repository's name-normalization and rolling
feature-aggregation core (src/majerus/parser.py and src/majerus/process.py),
as a shallow embedding in Lean 4.

Python strings are modelled as `String` (lists of characters); the string
operations used by the source (`lower`, `strip`, `split`, `replace`,
substring containment, `join`) are embedded below as executable functions
over `List Char`.  `unicodedata.normalize("NFKD", s)` is modelled as the
identity: NFKD normalization is the identity on ASCII strings, and every
string appearing in the alias tables and in the claims is ASCII.

Python's raise/return is modelled by `PyResult`; `np.nan` sentinels are
modelled by `none`; pandas dataframes are modelled by lists of records, and
the in-place column mutations of `process_game_logs` are modelled by state
passing (the result carries the post-call state of the input frame).
Names that process.py reads but never defines (`feature_cols` at line 103,
`team_tf` at line 128 and `team_df` in the loop body) are modelled as what
they are at runtime — a raised `NameError` — and the code they make
unreachable is not modelled as live.
-/

/-- Python raise-or-return: `ok` is a normal return, `raised` a raised
exception carrying the exception message. -/
inductive PyResult (α : Type) where
  | ok (v : α)
  | raised (msg : String)
deriving DecidableEq, Repr

/-- Whitespace test matching the characters Python `str.split()` /
`str.strip()` treat as whitespace in the ASCII range. -/
def isWs (c : Char) : Bool :=
  c == ' ' || c == '\t' || c == '\n' || c == '\r'

/-- ASCII lower-casing of one character, modelling Python `str.lower` on
ASCII input. -/
def toLowerCh (c : Char) : Char :=
  if 'A' ≤ c && c ≤ 'Z' then Char.ofNat (c.toNat + 32) else c

/-- Python `str.lower()` (ASCII). -/
def lowerL (s : List Char) : List Char := s.map toLowerCh

/-- Python `str.strip()`: drop leading and trailing whitespace. -/
def trimL (s : List Char) : List Char :=
  ((s.dropWhile isWs).reverse.dropWhile isWs).reverse

/-- Test whether `pat` is an initial segment of `s`. -/
def leadsWith : List Char → List Char → Bool
  | [], _ => true
  | _ :: _, [] => false
  | p :: ps, c :: cs => p == c && leadsWith ps cs

/-- Python `pat in s`: substring containment. -/
def containsL (pat : List Char) : List Char → Bool
  | [] => pat.isEmpty
  | c :: cs => leadsWith pat (c :: cs) || containsL pat cs

/-- Fuel-driven worker for `replaceL`; the fuel only serves structural
termination and is never exhausted when it starts at the string length,
since every recursive call strictly shortens the string. -/
def replaceFuel (pat rep : List Char) : Nat → List Char → List Char
  | _, [] => []
  | 0, s => s
  | fuel + 1, c :: cs =>
    if leadsWith pat (c :: cs) && !pat.isEmpty then
      rep ++ replaceFuel pat rep fuel (cs.drop (pat.length - 1))
    else
      c :: replaceFuel pat rep fuel cs

/-- Python `s.replace(pat, rep)` for a non-empty pattern: replace every
non-overlapping occurrence, scanning left to right. -/
def replaceL (pat rep s : List Char) : List Char :=
  replaceFuel pat rep s.length s

/-- Fuel-driven worker for `splitSepL`; as with `replaceFuel` the fuel is
never exhausted when it starts at the string length. -/
def splitSepFuel (sep : List Char) : Nat → List Char → List (List Char)
  | _, [] => [[]]
  | 0, s => [s]
  | fuel + 1, c :: cs =>
    if leadsWith sep (c :: cs) && !sep.isEmpty then
      [] :: splitSepFuel sep fuel (cs.drop (sep.length - 1))
    else
      match splitSepFuel sep fuel cs with
      | [] => [[c]]
      | t :: ts => (c :: t) :: ts

/-- Python `s.split(sep)` for a non-empty separator: split at every
occurrence, keeping empty fields. -/
def splitSepL (sep s : List Char) : List (List Char) :=
  splitSepFuel sep s.length s

/-- Helper for `splitWsL`: split at every whitespace character, keeping
empty fields. -/
def splitWsAux : List Char → List (List Char)
  | [] => [[]]
  | c :: cs =>
    if isWs c then [] :: splitWsAux cs
    else
      match splitWsAux cs with
      | [] => [[c]]
      | t :: ts => (c :: t) :: ts

/-- Python `s.split()` with no argument: split on whitespace runs and drop
empty fields. -/
def splitWsL (s : List Char) : List (List Char) :=
  (splitWsAux s).filter (fun t => !t.isEmpty)

/-- Substring containment on `String`, modelling Python `pat in s`. -/
def containsSub (s pat : String) : Bool := containsL pat.data s.data

/-- Python `unicodedata.normalize("NFKD", s)`, modelled as the identity:
NFKD is the identity on the ASCII strings this development deals with. -/
def nfkd (s : String) : String := s

/-- The static team alias table of src/majerus/parser.py (`__team_names`),
transcribed verbatim as an association list in source order.  Python dict
lookup is modelled by first-match lookup; the only duplicated key
("california-baptist") carries the same value both times, so first-match
and last-match agree. -/
def __team_names : List (String × String) := [
  ("abilene-christian", "abilene-christian"),
  ("air-force", "air-force"),
  ("akron", "akron"),
  ("alabama-am", "alabama-am"),
  ("alabama-birmingham", "alabama-birmingham"),
  ("uab", "alabama-birmingham"),
  ("alabama-state", "alabama-state"),
  ("alabama", "alabama"),
  ("albany-ny", "albany-ny"),
  ("albany", "albany-ny"),
  ("alcorn-state", "alcorn-state"),
  ("american", "american"),
  ("appalachian-state", "appalachian-state"),
  ("arizona-state", "arizona-state"),
  ("arizona", "arizona"),
  ("little-rock", "arkansas-little-rock"),
  ("arkansas-little-rock", "arkansas-little-rock"),
  ("arkansas-pine-bluff", "arkansas-pine-bluff"),
  ("arkansas-state", "arkansas-state"),
  ("arkansas", "arkansas"),
  ("army", "army"),
  ("auburn", "auburn"),
  ("austin-peay", "austin-peay"),
  ("ball-state", "ball-state"),
  ("baylor", "baylor"),
  ("belmont", "belmont"),
  ("bethune-cookman", "bethune-cookman"),
  ("binghamton", "binghamton"),
  ("boise-state", "boise-state"),
  ("boston-college", "boston-college"),
  ("boston-university", "boston-university"),
  ("bowling-green-state", "bowling-green-state"),
  ("bowling-green", "bowling-green-state"),
  ("bradley", "bradley"),
  ("byu", "brigham-young"),
  ("brigham-young", "brigham-young"),
  ("brown", "brown"),
  ("bryant", "bryant"),
  ("bucknell", "bucknell"),
  ("buffalo", "buffalo"),
  ("butler", "butler"),
  ("california-baptist", "california-baptist"),
  ("cal-baptist", "california-baptist"),
  ("cal-poly", "cal-poly"),
  ("cal-state-bakersfield", "cal-state-bakersfield"),
  ("cal-st-bakersfield", "cal-state-bakersfield"),
  ("cal-state-fullerton", "cal-state-fullerton"),
  ("cal-st-fullerton", "cal-state-fullerton"),
  ("cal-state-northridge", "cal-state-northridge"),
  ("cal-st-northridge", "cal-state-northridge"),
  ("cal-state-long-beach", "long-beach-state"),
  ("california-baptist", "california-baptist"),
  ("california-davis", "california-davis"),
  ("california-irvine", "california-irvine"),
  ("california-riverside", "california-riverside"),
  ("california-santa-barbara", "california-santa-barbara"),
  ("university-of-california", "california"),
  ("california", "california"),
  ("campbell", "campbell"),
  ("canisius", "canisius"),
  ("centenary", "centenary-la"),
  ("centenary (la)", "centenary-la"),
  ("centenary-la", "centenary-la"),
  ("central-arkansas", "central-arkansas"),
  ("central-connecticut-state", "central-connecticut-state"),
  ("central-connecticut", "central-connecticut-state"),
  ("central-florida", "central-florida"),
  ("ucf", "central-florida"),
  ("central-michigan", "central-michigan"),
  ("charleston-southern", "charleston-southern"),
  ("charlotte", "charlotte"),
  ("chattanooga", "chattanooga"),
  ("chicago-state", "chicago-state"),
  ("cincinnati", "cincinnati"),
  ("citadel", "citadel"),
  ("the-citadel", "citadel"),
  ("clemson", "clemson"),
  ("cleveland-state", "cleveland-state"),
  ("coastal-carolina", "coastal-carolina"),
  ("colgate", "colgate"),
  ("charleston", "college-of-charleston"),
  ("college-of-charleston", "college-of-charleston"),
  ("colorado-state", "colorado-state"),
  ("colorado", "colorado"),
  ("columbia", "columbia"),
  ("connecticut", "connecticut"),
  ("coppin-state", "coppin-state"),
  ("cornell", "cornell"),
  ("creighton", "creighton"),
  ("dartmouth", "dartmouth"),
  ("davidson", "davidson"),
  ("dayton", "dayton"),
  ("delaware-state", "delaware-state"),
  ("delaware", "delaware"),
  ("denver", "denver"),
  ("depaul", "depaul"),
  ("detroit-mercy", "detroit-mercy"),
  ("detroit", "detroit-mercy"),
  ("drake", "drake"),
  ("drexel", "drexel"),
  ("duke", "duke"),
  ("duquesne", "duquesne"),
  ("east-carolina", "east-carolina"),
  ("east-tennessee-state", "east-tennessee-state"),
  ("etsu", "east-tennessee-state"),
  ("eastern-illinois", "eastern-illinois"),
  ("eastern-kentucky", "eastern-kentucky"),
  ("eastern-michigan", "eastern-michigan"),
  ("eastern-washington", "eastern-washington"),
  ("elon", "elon"),
  ("evansville", "evansville"),
  ("fairfield", "fairfield"),
  ("fairleigh-dickinson", "fairleigh-dickinson"),
  ("florida-am", "florida-am"),
  ("florida-atlantic", "florida-atlantic"),
  ("fau", "florida-atlantic"),
  ("florida-gulf-coast", "florida-gulf-coast"),
  ("fgcu", "florida-gulf-coast"),
  ("florida-international", "florida-international"),
  ("fiu", "florida-international"),
  ("florida-state", "florida-state"),
  ("florida", "florida"),
  ("fordham", "fordham"),
  ("fresno-state", "fresno-state"),
  ("furman", "furman"),
  ("gardner-webb", "gardner-webb"),
  ("george-mason", "george-mason"),
  ("george-washington", "george-washington"),
  ("georgetown", "georgetown"),
  ("georgia-southern", "georgia-southern"),
  ("georgia-state", "georgia-state"),
  ("georgia-tech", "georgia-tech"),
  ("georgia", "georgia"),
  ("gonzaga", "gonzaga"),
  ("grambling-state", "grambling"),
  ("grambling", "grambling"),
  ("grand-canyon", "grand-canyon"),
  ("green-bay", "green-bay"),
  ("hampton", "hampton"),
  ("hartford", "hartford"),
  ("harvard", "harvard"),
  ("hawaii", "hawaii"),
  ("high-point", "high-point"),
  ("hofstra", "hofstra"),
  ("holy-cross", "holy-cross"),
  ("houston-baptist", "houston-baptist"),
  ("houston", "houston"),
  ("howard", "howard"),
  ("idaho-state", "idaho-state"),
  ("idaho", "idaho"),
  ("uic", "illinois-chicago"),
  ("illinois-chicago", "illinois-chicago"),
  ("illinois-state", "illinois-state"),
  ("illinois", "illinois"),
  ("incarnate-word", "incarnate-word"),
  ("indiana-state", "indiana-state"),
  ("indiana", "indiana"),
  ("iona", "iona"),
  ("iowa-state", "iowa-state"),
  ("iowa", "iowa"),
  ("purdue-fort-wayne", "ipfw"),
  ("fort-wayne", "ipfw"),
  ("ipfw", "ipfw"),
  ("iupui", "iupui"),
  ("jackson-state", "jackson-state"),
  ("jacksonville-state", "jacksonville-state"),
  ("jacksonville", "jacksonville"),
  ("james-madison", "james-madison"),
  ("kansas-state", "kansas-state"),
  ("kansas", "kansas"),
  ("kennesaw-state", "kennesaw-state"),
  ("kent-state", "kent-state"),
  ("kentucky", "kentucky"),
  ("la-salle", "la-salle"),
  ("lafayette", "lafayette"),
  ("lamar", "lamar"),
  ("lehigh", "lehigh"),
  ("liberty", "liberty"),
  ("lipscomb", "lipscomb"),
  ("long-beach-state", "long-beach-state"),
  ("long-island-university", "long-island-university"),
  ("liu", "long-island-university"),
  ("liu-brooklyn", "long-island-university"),
  ("longwood", "longwood"),
  ("louisiana", "louisiana-lafayette"),
  ("louisiana-lafayette", "louisiana-lafayette"),
  ("louisiana-monroe", "louisiana-monroe"),
  ("louisiana-state", "louisiana-state"),
  ("lsu", "louisiana-state"),
  ("louisiana-tech", "louisiana-tech"),
  ("louisville", "louisville"),
  ("loyola-il", "loyola-il"),
  ("loyola-chicago", "loyola-il"),
  ("loyola-marymount", "loyola-marymount"),
  ("loyola-md", "loyola-md"),
  ("maine", "maine"),
  ("manhattan", "manhattan"),
  ("marist", "marist"),
  ("marquette", "marquette"),
  ("marshall", "marshall"),
  ("maryland-baltimore-county", "maryland-baltimore-county"),
  ("umbc", "maryland-baltimore-county"),
  ("maryland-eastern-shore", "maryland-eastern-shore"),
  ("maryland", "maryland"),
  ("massachusetts-lowell", "massachusetts-lowell"),
  ("umass-lowell", "massachusetts-lowell"),
  ("massachusetts", "massachusetts"),
  ("umass", "massachusetts"),
  ("mcneese-state", "mcneese-state"),
  ("memphis", "memphis"),
  ("mercer", "mercer"),
  ("miami-fl", "miami-fl"),
  ("miami-oh", "miami-oh"),
  ("michigan-state", "michigan-state"),
  ("michigan", "michigan"),
  ("middle-tennessee", "middle-tennessee"),
  ("milwaukee", "milwaukee"),
  ("minnesota", "minnesota"),
  ("mississippi-state", "mississippi-state"),
  ("mississippi-valley-state", "mississippi-valley-state"),
  ("mississippi", "mississippi"),
  ("ole-miss", "mississippi"),
  ("missouri-kansas-city", "missouri-kansas-city"),
  ("umkc", "missouri-kansas-city"),
  ("missouri-state", "missouri-state"),
  ("missouri", "missouri"),
  ("monmouth", "monmouth"),
  ("montana-state", "montana-state"),
  ("montana", "montana"),
  ("morehead-state", "morehead-state"),
  ("morgan-state", "morgan-state"),
  ("mount-st-marys", "mount-st-marys"),
  ("murray-state", "murray-state"),
  ("navy", "navy"),
  ("omaha", "nebraska-omaha"),
  ("nebraska-omaha", "nebraska-omaha"),
  ("nebraska", "nebraska"),
  ("nevada-las-vegas", "nevada-las-vegas"),
  ("unlv", "nevada-las-vegas"),
  ("nevada", "nevada"),
  ("new-hampshire", "new-hampshire"),
  ("new-mexico-state", "new-mexico-state"),
  ("new-mexico", "new-mexico"),
  ("new-orleans", "new-orleans"),
  ("niagara", "niagara"),
  ("nicholls-state", "nicholls-state"),
  ("njit", "njit"),
  ("norfolk-state", "norfolk-state"),
  ("north-alabama", "north-alabama"),
  ("unc-asheville", "north-carolina-asheville"),
  ("north-carolina-asheville", "north-carolina-asheville"),
  ("north-carolina-at", "north-carolina-at"),
  ("north-carolina-central", "north-carolina-central"),
  ("north-carolina-greensboro", "north-carolina-greensboro"),
  ("unc-greensboro", "north-carolina-greensboro"),
  ("north-carolina-state", "north-carolina-state"),
  ("n.c.-state", "north-carolina-state"),
  ("nc-state", "north-carolina-state"),
  ("north-carolina-wilmington", "north-carolina-wilmington"),
  ("unc-wilmington", "north-carolina-wilmington"),
  ("north-carolina", "north-carolina"),
  ("unc", "north-carolina"),
  ("north-dakota-state", "north-dakota-state"),
  ("north-dakota", "north-dakota"),
  ("north-florida", "north-florida"),
  ("north-texas", "north-texas"),
  ("northeastern", "northeastern"),
  ("northern-arizona", "northern-arizona"),
  ("northern-colorado", "northern-colorado"),
  ("northern-illinois", "northern-illinois"),
  ("northern-iowa", "northern-iowa"),
  ("northern-kentucky", "northern-kentucky"),
  ("northwestern-state", "northwestern-state"),
  ("northwestern", "northwestern"),
  ("notre-dame", "notre-dame"),
  ("oakland", "oakland"),
  ("ohio-state", "ohio-state"),
  ("ohio", "ohio"),
  ("oklahoma-state", "oklahoma-state"),
  ("oklahoma", "oklahoma"),
  ("old-dominion", "old-dominion"),
  ("oral-roberts", "oral-roberts"),
  ("oregon-state", "oregon-state"),
  ("oregon", "oregon"),
  ("pacific", "pacific"),
  ("penn-state", "penn-state"),
  ("pennsylvania", "pennsylvania"),
  ("penn", "pennsylvania"),
  ("pepperdine", "pepperdine"),
  ("pittsburgh", "pittsburgh"),
  ("pitt", "pittsburgh"),
  ("portland-state", "portland-state"),
  ("portland", "portland"),
  ("prairie-view", "prairie-view"),
  ("prairie-view-am", "prairie-view"),
  ("presbyterian", "presbyterian"),
  ("princeton", "princeton"),
  ("providence", "providence"),
  ("purdue", "purdue"),
  ("quinnipiac", "quinnipiac"),
  ("radford", "radford"),
  ("rhode-island", "rhode-island"),
  ("rice", "rice"),
  ("richmond", "richmond"),
  ("rider", "rider"),
  ("robert-morris", "robert-morris"),
  ("rutgers", "rutgers"),
  ("sacramento-state", "sacramento-state"),
  ("sacred-heart", "sacred-heart"),
  ("saint-francis-pa", "saint-francis-pa"),
  ("saint-josephs", "saint-josephs"),
  ("st-josephs", "saint-josephs"),
  ("saint-louis", "saint-louis"),
  ("saint-marys-ca", "saint-marys-ca"),
  ("saint-marys", "saint-marys-ca"),
  ("saint-peters", "saint-peters"),
  ("sam-houston-state", "sam-houston-state"),
  ("samford", "samford"),
  ("san-diego-state", "san-diego-state"),
  ("san-diego", "san-diego"),
  ("san-francisco", "san-francisco"),
  ("san-jose-state", "san-jose-state"),
  ("santa-clara", "santa-clara"),
  ("savannah-state", "savannah-state"),
  ("seattle", "seattle"),
  ("seton-hall", "seton-hall"),
  ("siena", "siena"),
  ("south-alabama", "south-alabama"),
  ("south-carolina-state", "south-carolina-state"),
  ("south-carolina-upstate", "south-carolina-upstate"),
  ("usc-upstate", "south-carolina-upstate"),
  ("south-carolina", "south-carolina"),
  ("south-dakota-state", "south-dakota-state"),
  ("south-dakota", "south-dakota"),
  ("south-florida", "south-florida"),
  ("southeast-missouri-state", "southeast-missouri-state"),
  ("southeastern-louisiana", "southeastern-louisiana"),
  ("southern-california", "southern-california"),
  ("usc", "southern-california"),
  ("siu-edwardsville", "southern-illinois-edwardsville"),
  ("southern-illinois-edwardsville", "southern-illinois-edwardsville"),
  ("southern-illinois", "southern-illinois"),
  ("smu", "southern-methodist"),
  ("southern-methodist", "southern-methodist"),
  ("southern-miss", "southern-mississippi"),
  ("southern-mississippi", "southern-mississippi"),
  ("southern-utah", "southern-utah"),
  ("southern", "southern"),
  ("saint-bonaventure", "st-bonaventure"),
  ("st-bonaventure", "st-bonaventure"),
  ("st-francis-ny", "st-francis-ny"),
  ("saint-francis-ny", "st-francis-ny"),
  ("saint-johns", "st-johns-ny"),
  ("st-johns-ny", "st-johns-ny"),
  ("saint-johns-ny", "st-johns-ny"),
  ("stanford", "stanford"),
  ("stephen-f-austin", "stephen-f-austin"),
  ("stetson", "stetson"),
  ("stony-brook", "stony-brook"),
  ("syracuse", "syracuse"),
  ("temple", "temple"),
  ("tennessee-martin", "tennessee-martin"),
  ("tennessee-state", "tennessee-state"),
  ("tennessee-tech", "tennessee-tech"),
  ("tennessee", "tennessee"),
  ("texas-am-corpus-christi", "texas-am-corpus-christi"),
  ("texas-am-corpus-chris", "texas-am-corpus-christi"),
  ("texas-am", "texas-am"),
  ("ut-arlington", "texas-arlington"),
  ("texas-arlington", "texas-arlington"),
  ("tcu", "texas-christian"),
  ("texas-christian", "texas-christian"),
  ("texas-el-paso", "texas-el-paso"),
  ("utep", "texas-el-paso"),
  ("texas-rio-grande-valley", "texas-pan-american"),
  ("ut-rio-grande-valley", "texas-pan-american"),
  ("texas-pan-american", "texas-pan-american"),
  ("texas-san-antonio", "texas-san-antonio"),
  ("utsa", "texas-san-antonio"),
  ("texas-southern", "texas-southern"),
  ("texas-state", "texas-state"),
  ("texas-tech", "texas-tech"),
  ("texas", "texas"),
  ("toledo", "toledo"),
  ("towson", "towson"),
  ("troy", "troy"),
  ("tulane", "tulane"),
  ("tulsa", "tulsa"),
  ("ucla", "ucla"),
  ("utah-state", "utah-state"),
  ("utah-valley", "utah-valley"),
  ("utah", "utah"),
  ("valparaiso", "valparaiso"),
  ("vanderbilt", "vanderbilt"),
  ("vermont", "vermont"),
  ("villanova", "villanova"),
  ("virginia-commonwealth", "virginia-commonwealth"),
  ("vcu", "virginia-commonwealth"),
  ("vmi", "virginia-military-institute"),
  ("virginia-military-institute", "virginia-military-institute"),
  ("virginia-tech", "virginia-tech"),
  ("virginia", "virginia"),
  ("wagner", "wagner"),
  ("wake-forest", "wake-forest"),
  ("washington-state", "washington-state"),
  ("washington", "washington"),
  ("weber-state", "weber-state"),
  ("west-virginia", "west-virginia"),
  ("western-carolina", "western-carolina"),
  ("western-illinois", "western-illinois"),
  ("western-kentucky", "western-kentucky"),
  ("western-michigan", "western-michigan"),
  ("wichita-state", "wichita-state"),
  ("william-mary", "william-mary"),
  ("winthrop", "winthrop"),
  ("wisconsin", "wisconsin"),
  ("wofford", "wofford"),
  ("wright-state", "wright-state"),
  ("wyoming", "wyoming"),
  ("xavier", "xavier"),
  ("yale", "yale"),
  ("youngstown-state", "youngstown-state")]

/-- The static conference alias table of src/majerus/parser.py
(`__conf_name`), transcribed verbatim in source order. -/
def __conf_name : List (String × String) := [
  ("mid-eastern athletic conference", "meac"),
  ("meac", "meac"),
  ("mid-american conference", "mac"),
  ("mac", "mac"),
  ("mountain west conference", "mwc"),
  ("mwc", "mwc"),
  ("atlantic 10 conference", "atlantic-10"),
  ("a-10", "atlantic-10"),
  ("a10", "atlantic-10"),
  ("atlantic-10", "atlantic-10"),
  ("missouri valley conference", "mvc"),
  ("mvc", "mvc"),
  ("southern conference", "southern"),
  ("sc", "southern"),
  ("southern", "southern"),
  ("ivy group", "ivy"),
  ("ivy", "ivy"),
  ("sun belt conference", "sun-belt"),
  ("sun belt", "sun-belt"),
  ("sb", "sun-belt"),
  ("sun-belt", "sun-belt"),
  ("conference usa", "cusa"),
  ("cusa", "cusa"),
  ("western athletic conference", "wac"),
  ("wac", "wac"),
  ("horizon league", "horizon"),
  ("horizon", "horizon"),
  ("horz", "horizon"),
  ("colonial athletic association", "colonial"),
  ("caa", "colonial"),
  ("colonial", "colonial"),
  ("big west conference", "big-west"),
  ("bw", "big-west"),
  ("big west", "big-west"),
  ("big-west", "big-west"),
  ("atlantic sun conference", "atlantic-sun"),
  ("a-sun", "atlantic-sun"),
  ("asun", "atlantic-sun"),
  ("atlantic-sun", "atlantic-sun"),
  ("summit league", "summit"),
  ("summit", "summit"),
  ("sum", "summit"),
  ("patriot league", "patriot"),
  ("patriot", "patriot"),
  ("pat", "patriot"),
  ("ohio valley conference", "ovc"),
  ("ovc", "ovc"),
  ("big south conference", "big-south"),
  ("big south", "big-south"),
  ("big-south", "big-south"),
  ("bsth", "big-south"),
  ("america east conference", "america-east"),
  ("aec", "america-east"),
  ("ae", "america-east"),
  ("america-east", "america-east"),
  ("big sky conference", "big-sky"),
  ("big sky", "big-sky"),
  ("big-sky", "big-sky"),
  ("bsky", "big-sky"),
  ("metro atlantic athletic conference", "maac"),
  ("maac", "maac"),
  ("southland conference", "southland"),
  ("southland", "southland"),
  ("slnd", "southland"),
  ("northeast conference", "northeast"),
  ("nec", "northeast"),
  ("northeast", "northeast"),
  ("southwest athletic conference", "swac"),
  ("swac", "swac"),
  ("big ten conference", "big-ten"),
  ("big ten", "big-ten"),
  ("b10", "big-ten"),
  ("big-ten", "big-ten"),
  ("big 12 conference", "big-12"),
  ("b12", "big-12"),
  ("big 12", "big-12"),
  ("big-12", "big-12"),
  ("atlantic coast conference", "acc"),
  ("acc", "acc"),
  ("southeastern conference", "sec"),
  ("sec", "sec"),
  ("big east conference", "big-east"),
  ("be", "big-east"),
  ("big east", "big-east"),
  ("big-east", "big-east"),
  ("pacific-12 conference", "pac-12"),
  ("pac 12", "pac-12"),
  ("p12", "pac-12"),
  ("pac-12", "pac-12"),
  ("pacific-10 conference", "pac-10"),
  ("pac 10", "pac-10"),
  ("pac-10", "pac-10"),
  ("p10", "pac-10"),
  ("american athletic conference", "aac"),
  ("amer", "aac"),
  ("aac", "aac"),
  ("west coast conference", "wcc"),
  ("wcc", "wcc"),
  ("great west conference", "great-west"),
  ("great-west", "great-west"),
  ("gwc", "great-west"),
  ("ind", "ind")]

/-- First-match lookup of a transformed key in the team alias table,
modelling the Python dict lookup `__team_names[parsed_team]` (parser.py
line 624): `none` models the `KeyError` case. -/
def teamLookup (k : String) : Option String :=
  (__team_names.find? (fun p => p.1 == k)).map Prod.snd

/-- Lookup in the conference alias table (parser.py line 675). -/
def confLookup (k : String) : Option String :=
  (__conf_name.find? (fun p => p.1 == k)).map Prod.snd

/-- The "st." disambiguation step of `name_normalizer` (parser.py lines
587-596): if the string contains the substring "st." then, when the first
whitespace token is exactly "st.", every occurrence of "st." is replaced by
"saint"; otherwise, when the last token is exactly "st.", every occurrence
is replaced by "state"; otherwise the string is left unchanged. -/
def stStep (s : String) : String :=
  if containsSub s "st." then
    if (splitWsL s.data).head? == some ("st.".data) then
      String.mk (replaceL ("st.".data) ("saint".data) s.data)
    else if (splitWsL s.data).getLast? == some ("st.".data) then
      String.mk (replaceL ("st.".data) ("state".data) s.data)
    else s
  else s

/-- The junk-character removal step of `name_normalizer` (parser.py lines
599-600): remove the characters `& ( ) ' .` without inserting whitespace.
Removing a single character is the same as the Python loop of
`str.replace(char, "")` calls. -/
def removeJunk (s : List Char) : List Char :=
  s.filter (fun c => !(c == '&' || c == '(' || c == ')' || c == '\'' || c == '.'))

/-- The hyphen-to-space step of `name_normalizer` (parser.py line 603). -/
def dashToSpace (s : List Char) : List Char :=
  s.map (fun c => if c == '-' then ' ' else c)

/-- The token sequence produced by the preprocessing pipeline of
`name_normalizer` (parser.py lines 585-612): NFKD + lower + strip, the
"st." step, junk removal, hyphens to spaces, split on single spaces,
"uc" -> "california", and removal of empty tokens. -/
def teamTokens (name : String) : List String :=
  let s0 := trimL (lowerL (nfkd name).data)
  let s1 := (stStep (String.mk s0)).data
  let s2 := dashToSpace (removeJunk s1)
  let toks := (splitSepL (" ".data) s2).map String.mk
  let toks := toks.map (fun wd => if wd == "uc" then "california" else wd)
  toks.filter (fun el => el ≠ "")

/-- The tournament-flag step of `name_normalizer` (parser.py lines
614-620): if "ncaa" occurs anywhere in the token list, set the flag to 1
and join all but the LAST token with hyphens; otherwise set the flag to 0
and join all tokens. -/
def tourneyStep (toks : List String) : String × Nat :=
  if toks.contains "ncaa" then
    (String.intercalate "-" toks.dropLast, 1)
  else
    (String.intercalate "-" toks, 0)

/-- Lookup key and tournament flag computed by `name_normalizer`'s
preprocessing for a raw team name. -/
def teamKeyFlag (name : String) : String × Nat :=
  tourneyStep (teamTokens name)

/-- The lookup key alone. -/
def teamKey (name : String) : String := (teamKeyFlag name).1

/-- The `KeyError` message raised by `name_normalizer` on a lookup miss
(parser.py line 630); the Python f-string interpolates the failed key. -/
def errTeamMsg (k : String) : String :=
  "Incorrect team name: " ++ k ++ ". See this function's docs for valid names."

/-- The `KeyError` message raised by `conf_name_normalizer` on a lookup
miss (parser.py line 681).  The source string lacks the `f` prefix, so
Python does NOT interpolate: the message is this literal text, with a
verbatim "\x7bparsed_conf\x7d" placeholder and no failed key in it. -/
def errConfMsg : String :=
  "Incorrect conference name: \x7bparsed_conf\x7d. See this function's docs for valid names."

/-- Result shapes of `name_normalizer` (parser.py lines 633-640): the
parsed name alone, the tournament flag alone, or both; `none` in the name
position models the `np.nan` absent-value sentinel used when
`ignore_errors` is set. -/
inductive NameResult where
  | name (v : Option String)
  | flag (b : Nat)
  | both (v : Option String) (b : Nat)
deriving DecidableEq, Repr

/-- Shallow embedding of `name_normalizer` (parser.py lines 555-640). -/
def name_normalizer (name : String) (made_tourney return_both ignore_errors : Bool) :
    PyResult NameResult :=
  match teamLookup (teamKeyFlag name).1 with
  | some v =>
    if return_both then PyResult.ok (NameResult.both (some v) (teamKeyFlag name).2)
    else if made_tourney then PyResult.ok (NameResult.flag (teamKeyFlag name).2)
    else PyResult.ok (NameResult.name (some v))
  | none =>
    if ignore_errors then
      if return_both then PyResult.ok (NameResult.both none (teamKeyFlag name).2)
      else if made_tourney then PyResult.ok (NameResult.flag (teamKeyFlag name).2)
      else PyResult.ok (NameResult.name none)
    else PyResult.raised (errTeamMsg (teamKeyFlag name).1)

/-- The lookup key computed by `conf_name_normalizer` (parser.py lines
667-671): NFKD + lower + strip, then, if a parenthesized directional
qualifier occurs as a substring, drop the last space-delimited field and
join the rest with hyphens. -/
def confKey (name : String) : String :=
  let s := String.mk (trimL (lowerL (nfkd name).data))
  if containsSub s "(east)" || containsSub s "(west)" ||
      containsSub s "(south)" || containsSub s "(north)" then
    String.intercalate "-" (((splitSepL (" ".data) s.data).map String.mk).dropLast)
  else s

/-- Shallow embedding of `conf_name_normalizer` (parser.py lines 643-684):
`ok none` models returning the `np.nan` sentinel. -/
def conf_name_normalizer (name : String) (ignore_errors : Bool) :
    PyResult (Option String) :=
  match confLookup (confKey name) with
  | some v => PyResult.ok (some v)
  | none =>
    if ignore_errors then PyResult.ok none
    else PyResult.raised errConfMsg

/-- The codomain (with repetitions) of the team alias table: the canonical
team identifiers. -/
def teamValues : List String := __team_names.map Prod.snd

/-- One row of the input gamelog dataframe handed to `process_game_logs`,
with the columns the function touches before it dies: the date string,
venue marker, team and opponent identifiers, point totals, the win
indicator already present in the scraped logs, and the tracked statistic
columns (`featureCols`, in order; `none` models a missing/NaN value). -/
structure InputRow where
  Date : String
  Location : String
  Team : String
  Opponent : String
  TeamPoints : Int
  OpponentPoints : Int
  team_won : Int
  stats : List (Option ℚ)
deriving DecidableEq, Repr

/-- The twenty statistic columns listed at process.py lines 95-97.  The
source binds this list to the name `featureCols`; the references at lines
103 and 153-154 spell it `feature_cols`, a name defined nowhere in the
module. -/
def featureCols : List String :=
  ["FGA", "FG%", "PF", "3P%", "FT%", "ORtg", "DRtg", "Pace",
   "FTr", "3PAr", "TS%", "TRB%", "AST%", "STL%", "BLK%",
   "eFG%", "TOV%", "ORB%", "FT/FGA", "DRB%"]

/-- The columns of the input dataframe before the call. -/
def inputColumns : List String :=
  ["Date", "Location", "Team", "Opponent", "TeamPoints", "OpponentPoints",
   "team_won"] ++ featureCols

/-- The columns of the input dataframe after the in-place mutations of
process.py lines 85-91, which add `home_name`, `team_at_home`,
`neutral_site` and `total_score` to the caller's dataframe. -/
def augColumns : List String :=
  inputColumns ++ ["home_name", "team_at_home", "neutral_site", "total_score"]

/-- `pd.to_datetime(., format="%Y-%m-%d")` (process.py line 92), modelled
by reading the digits of the date string as one number: for fixed-format
`YYYY-MM-DD` strings this is order-preserving. -/
def parseDate (s : String) : Nat :=
  s.data.foldl (fun acc c => if c.isDigit then acc * 10 + (c.toNat - 48) else acc) 0

/-- `__home_name` (process.py lines 22-43). -/
def __home_name (location team opponent : String) : String :=
  if location == "H" || location == "N" then team else opponent

/-- A dataframe row after the in-place mutations of process.py lines
85-92: `Date` has been overwritten with its parsed form and the four
derived columns have been appended. -/
structure AugRow where
  DateParsed : Nat
  Location : String
  Team : String
  Opponent : String
  TeamPoints : Int
  OpponentPoints : Int
  team_won : Int
  stats : List (Option ℚ)
  home_name : String
  team_at_home : Int
  neutral_site : Int
  total_score : Int
deriving DecidableEq, Repr

/-- The row-wise effect of process.py lines 85-92 on the caller's
dataframe. -/
def augmentRow (r : InputRow) : AugRow :=
  { DateParsed := parseDate r.Date
    Location := r.Location
    Team := r.Team
    Opponent := r.Opponent
    TeamPoints := r.TeamPoints
    OpponentPoints := r.OpponentPoints
    team_won := r.team_won
    stats := r.stats
    home_name := __home_name r.Location r.Team r.Opponent
    team_at_home := if r.Location == "H" then 1 else 0
    neutral_site := if r.Location == "N" then 1 else 0
    total_score := r.TeamPoints + r.OpponentPoints }

/-- The state of the caller's dataframe after a `process_game_logs` call:
`unchanged` when the call raised before the mutations of lines 85-92
(name normalization failed), `augmented` when those mutations ran. -/
inductive FrameState where
  | unchanged (rows : List InputRow)
  | augmented (rows : List AugRow)
deriving DecidableEq, Repr

/-- The `NameError` raised at process.py line 103, where the loop header
`for col in feature_cols` reads a name that is never defined (line 95
binds `featureCols`). -/
def nameErrorFeatureCols : String :=
  "NameError: name 'feature_cols' is not defined"

set_option linter.unusedVariables false in
/-- Shallow embedding of `process_game_logs` (process.py lines 46-188),
with the in-place dataframe mutation made explicit: the first component
is the post-call state of the caller's dataframe, the second the Python
outcome.  Control flow of the source: line 81 normalizes the team name
with `ignore_errors=False`, so an unknown name raises its `KeyError`
before any mutation; lines 85-92 then mutate the caller's dataframe in
place; line 95 binds `featureCols` — and line 103 iterates over
`feature_cols`, which is undefined, so every call that passes name
normalization raises `NameError` there.  Everything after line 103 — the
`groupby` at line 119, the `return None` at line 124 and the aggregation
loop of lines 127-188 (which also reads the undefined names `team_tf` and
`team_df`) — is unreachable dead code and is not modelled as live; since
no execution path returns normally, the normal-return payload is modelled
as `Unit`.  (With `made_tourney=False, return_both=False,
ignore_errors=False` the normalizer can only return a parsed name or
raise, so the final catch-all branch is unreachable.) -/
def process_game_logs (df : List InputRow) (team : String) (skip_first_n : Nat) :
    FrameState × PyResult Unit :=
  match name_normalizer team false false false with
  | PyResult.raised e => (FrameState.unchanged df, PyResult.raised e)
  | PyResult.ok (NameResult.name (some _)) =>
    (FrameState.augmented (df.map augmentRow), PyResult.raised nameErrorFeatureCols)
  | PyResult.ok _ => (FrameState.unchanged df, PyResult.raised "")

/-- Builds an input gamelog row with all statistic columns missing; the
claims settled on concrete frames below do not inspect statistic values. -/
def mkRowT (date loc team opp : String) (tp op won : Int) : InputRow :=
  { Date := date, Location := loc, Team := team, Opponent := opp,
    TeamPoints := tp, OpponentPoints := op, team_won := won, stats := [] }

/-- A season frame with three duke and three kansas games; the duke rows
appear out of date order in the input (dates 01, 03, 02). -/
def df3 : List InputRow :=
  [mkRowT "2018-01-01" "H" "duke" "kansas" 70 60 1,
   mkRowT "2018-01-03" "H" "duke" "kansas" 70 60 1,
   mkRowT "2018-01-02" "H" "duke" "kansas" 70 60 1,
   mkRowT "2018-01-01" "A" "kansas" "duke" 60 70 0,
   mkRowT "2018-01-03" "A" "kansas" "duke" 60 70 0,
   mkRowT "2018-01-02" "A" "kansas" "duke" 60 70 0]

/-- A small date-ordered season frame with two duke and two kansas games. -/
def dfW : List InputRow :=
  [mkRowT "2018-01-01" "H" "duke" "kansas" 70 60 1,
   mkRowT "2018-01-02" "H" "duke" "kansas" 70 60 1,
   mkRowT "2018-01-01" "A" "kansas" "duke" 60 70 0,
   mkRowT "2018-01-02" "A" "kansas" "duke" 60 70 0]

/-- A frame containing kansas games only: no duke group exists. -/
def dfK : List InputRow :=
  [mkRowT "2018-01-01" "A" "kansas" "duke" 60 70 0,
   mkRowT "2018-01-02" "A" "kansas" "duke" 60 70 0]

/-- Written after the amended form of claim C5: the "st." step picks one
replacement word from the position of the FIRST or LAST whitespace token
and then applies it to every occurrence of the substring "st." in the
whole string; when neither the first nor the last token is exactly "st."
the string is unchanged. -/
def stStepSpecAmended (s : String) : String :=
  if containsSub s "st." && ((splitWsL s.data).head? == some ("st.".data)) then
    String.mk (replaceL ("st.".data) ("saint".data) s.data)
  else if containsSub s "st." && ((splitWsL s.data).getLast? == some ("st.".data)) then
    String.mk (replaceL ("st.".data) ("state".data) s.data)
  else s

theorem mj_map_proj {α β γ : Type} (f : α → β) (p : β → γ) (q : α → γ)
    (hpq : ∀ a, p (f a) = q a) (l : List α) : (l.map f).map p = l.map q := by
  induction l with
  | nil => rfl
  | cons a t ih => simp [hpq, ih]

theorem mj_ball_chain {α : Type} {P : α → Prop} (n k m : Nat) (l : List α)
    (hm : k + n = m) (h1 : ∀ x ∈ (l.drop k).take n, P x)
    (h2 : ∀ x ∈ l.drop m, P x) : ∀ x ∈ l.drop k, P x := by
  intro x hx
  rw [← List.take_append_drop n (l.drop k)] at hx
  rcases List.mem_append.mp hx with h | h
  · exact h1 x h
  · rw [List.drop_drop, hm] at h
    exact h2 x h

set_option maxRecDepth 100000 in
set_option maxHeartbeats 4000000 in
theorem mj_key_c0 : ∀ x ∈ (teamValues.drop 0).take 40, teamKey x = x := by
  decide

set_option maxRecDepth 100000 in
set_option maxHeartbeats 4000000 in
theorem mj_key_c1 : ∀ x ∈ (teamValues.drop 40).take 40, teamKey x = x := by
  decide

set_option maxRecDepth 100000 in
set_option maxHeartbeats 4000000 in
theorem mj_key_c2 : ∀ x ∈ (teamValues.drop 80).take 40, teamKey x = x := by
  decide

set_option maxRecDepth 100000 in
set_option maxHeartbeats 4000000 in
theorem mj_key_c3 : ∀ x ∈ (teamValues.drop 120).take 40, teamKey x = x := by
  decide

set_option maxRecDepth 100000 in
set_option maxHeartbeats 4000000 in
theorem mj_key_c4 : ∀ x ∈ (teamValues.drop 160).take 40, teamKey x = x := by
  decide

set_option maxRecDepth 100000 in
set_option maxHeartbeats 4000000 in
theorem mj_key_c5 : ∀ x ∈ (teamValues.drop 200).take 40, teamKey x = x := by
  decide

set_option maxRecDepth 100000 in
set_option maxHeartbeats 4000000 in
theorem mj_key_c6 : ∀ x ∈ (teamValues.drop 240).take 40, teamKey x = x := by
  decide

set_option maxRecDepth 100000 in
set_option maxHeartbeats 4000000 in
theorem mj_key_c7 : ∀ x ∈ (teamValues.drop 280).take 40, teamKey x = x := by
  decide

set_option maxRecDepth 100000 in
set_option maxHeartbeats 4000000 in
theorem mj_key_c8 : ∀ x ∈ (teamValues.drop 320).take 40, teamKey x = x := by
  decide

set_option maxRecDepth 100000 in
set_option maxHeartbeats 4000000 in
theorem mj_key_c9 : ∀ x ∈ (teamValues.drop 360).take 40, teamKey x = x := by
  decide

set_option maxRecDepth 100000 in
set_option maxHeartbeats 4000000 in
theorem mj_key_c10 : ∀ x ∈ (teamValues.drop 400).take 40, teamKey x = x := by
  decide

set_option maxRecDepth 100000 in
set_option maxHeartbeats 4000000 in
theorem mj_lookup_c0 : ∀ x ∈ (teamValues.drop 0).take 40, teamLookup x = some x := by
  decide

set_option maxRecDepth 100000 in
set_option maxHeartbeats 4000000 in
theorem mj_lookup_c1 : ∀ x ∈ (teamValues.drop 40).take 40, teamLookup x = some x := by
  decide

set_option maxRecDepth 100000 in
set_option maxHeartbeats 4000000 in
theorem mj_lookup_c2 : ∀ x ∈ (teamValues.drop 80).take 40, teamLookup x = some x := by
  decide

set_option maxRecDepth 100000 in
set_option maxHeartbeats 4000000 in
theorem mj_lookup_c3 : ∀ x ∈ (teamValues.drop 120).take 40, teamLookup x = some x := by
  decide

set_option maxRecDepth 100000 in
set_option maxHeartbeats 4000000 in
theorem mj_lookup_c4 : ∀ x ∈ (teamValues.drop 160).take 40, teamLookup x = some x := by
  decide

set_option maxRecDepth 100000 in
set_option maxHeartbeats 4000000 in
theorem mj_lookup_c5 : ∀ x ∈ (teamValues.drop 200).take 40, teamLookup x = some x := by
  decide

set_option maxRecDepth 100000 in
set_option maxHeartbeats 4000000 in
theorem mj_lookup_c6 : ∀ x ∈ (teamValues.drop 240).take 40, teamLookup x = some x := by
  decide

set_option maxRecDepth 100000 in
set_option maxHeartbeats 4000000 in
theorem mj_lookup_c7 : ∀ x ∈ (teamValues.drop 280).take 40, teamLookup x = some x := by
  decide

set_option maxRecDepth 100000 in
set_option maxHeartbeats 4000000 in
theorem mj_lookup_c8 : ∀ x ∈ (teamValues.drop 320).take 40, teamLookup x = some x := by
  decide

set_option maxRecDepth 100000 in
set_option maxHeartbeats 4000000 in
theorem mj_lookup_c9 : ∀ x ∈ (teamValues.drop 360).take 40, teamLookup x = some x := by
  decide

set_option maxRecDepth 100000 in
set_option maxHeartbeats 4000000 in
theorem mj_lookup_c10 : ∀ x ∈ (teamValues.drop 400).take 40, teamLookup x = some x := by
  decide

set_option maxRecDepth 100000 in
theorem mj_teamValues_drop_440 : teamValues.drop 440 = [] := by
  decide

theorem mj_key_all : ∀ x ∈ teamValues, teamKey x = x := by
  rw [← List.drop_zero teamValues]
  refine mj_ball_chain 40 0 40 teamValues rfl mj_key_c0 ?_
  refine mj_ball_chain 40 40 80 teamValues rfl mj_key_c1 ?_
  refine mj_ball_chain 40 80 120 teamValues rfl mj_key_c2 ?_
  refine mj_ball_chain 40 120 160 teamValues rfl mj_key_c3 ?_
  refine mj_ball_chain 40 160 200 teamValues rfl mj_key_c4 ?_
  refine mj_ball_chain 40 200 240 teamValues rfl mj_key_c5 ?_
  refine mj_ball_chain 40 240 280 teamValues rfl mj_key_c6 ?_
  refine mj_ball_chain 40 280 320 teamValues rfl mj_key_c7 ?_
  refine mj_ball_chain 40 320 360 teamValues rfl mj_key_c8 ?_
  refine mj_ball_chain 40 360 400 teamValues rfl mj_key_c9 ?_
  refine mj_ball_chain 40 400 440 teamValues rfl mj_key_c10 ?_
  intro x hx
  rw [mj_teamValues_drop_440] at hx
  exact absurd hx (List.not_mem_nil x)

theorem mj_lookup_all : ∀ x ∈ teamValues, teamLookup x = some x := by
  rw [← List.drop_zero teamValues]
  refine mj_ball_chain 40 0 40 teamValues rfl mj_lookup_c0 ?_
  refine mj_ball_chain 40 40 80 teamValues rfl mj_lookup_c1 ?_
  refine mj_ball_chain 40 80 120 teamValues rfl mj_lookup_c2 ?_
  refine mj_ball_chain 40 120 160 teamValues rfl mj_lookup_c3 ?_
  refine mj_ball_chain 40 160 200 teamValues rfl mj_lookup_c4 ?_
  refine mj_ball_chain 40 200 240 teamValues rfl mj_lookup_c5 ?_
  refine mj_ball_chain 40 240 280 teamValues rfl mj_lookup_c6 ?_
  refine mj_ball_chain 40 280 320 teamValues rfl mj_lookup_c7 ?_
  refine mj_ball_chain 40 320 360 teamValues rfl mj_lookup_c8 ?_
  refine mj_ball_chain 40 360 400 teamValues rfl mj_lookup_c9 ?_
  refine mj_ball_chain 40 400 440 teamValues rfl mj_lookup_c10 ?_
  intro x hx
  rw [mj_teamValues_drop_440] at hx
  exact absurd hx (List.not_mem_nil x)

theorem mj_nn_eval (v : String) (hk : teamKey v = v) (hl : teamLookup v = some v) :
    name_normalizer v false false false = PyResult.ok (NameResult.name (some v)) := by
  unfold teamKey at hk
  unfold name_normalizer
  rw [hk, hl]
  simp

set_option maxRecDepth 100000 in
theorem mj_nn_duke :
    name_normalizer "duke" false false false = PyResult.ok (NameResult.name (some "duke")) :=
  mj_nn_eval "duke" (by decide) (by decide)

theorem mj_process_raises (df : List InputRow) (team : String) (n : Nat) (parsed : String)
    (h : name_normalizer team false false false =
      PyResult.ok (NameResult.name (some parsed))) :
    process_game_logs df team n =
      (FrameState.augmented (df.map augmentRow), PyResult.raised nameErrorFeatureCols) := by
  unfold process_game_logs
  rw [h]

/-- C1: the no-lookahead claim describes the intended aggregation, but
the feature construction of process.py never runs: evaluated at a
concrete frame that would give both teams prior history, the call mutates
the frame and then raises the line-103 NameError (the undefined
`feature_cols`) instead of emitting any feature row, so no emitted row —
and in particular no lookahead — ever exists. -/
theorem C1_no_lookahead :
    process_game_logs dfW "duke" 0 =
      (FrameState.augmented (dfW.map augmentRow), PyResult.raised nameErrorFeatureCols) :=
  mj_process_raises dfW "duke" 0 "duke" mj_nn_duke

/-- C2: the emitted-row-count claim matches the structure of the dead
loop, but the real function emits nothing: on a frame whose duke log has
N = 3 games with warmup 0 < N, the call raises the line-103 NameError
before the groupby, producing zero rows instead of N - warmup minus the
skips. -/
theorem C2_row_count :
    df3.countP (fun r => r.Team == "duke") = 3 ∧
    process_game_logs df3 "duke" 0 =
      (FrameState.augmented (df3.map augmentRow), PyResult.raised nameErrorFeatureCols) :=
  ⟨by decide, mj_process_raises df3 "duke" 0 "duke" mj_nn_duke⟩

/-- Counterexample to C3: `process_game_logs` neither partitions the
records nor returns rows in any order — at this concrete frame the call
raises the line-103 NameError (before the groupby at line 119) and never
completes normally. -/
theorem C3_order_counterexample :
    process_game_logs df3 "duke" 0 =
      (FrameState.augmented (df3.map augmentRow), PyResult.raised nameErrorFeatureCols) ∧
    (process_game_logs df3 "duke" 0).2 ≠ PyResult.ok () := by
  have h := mj_process_raises df3 "duke" 0 "duke" mj_nn_duke
  refine ⟨h, ?_⟩
  rw [h]
  decide

/-- C3 amended: after a successful name normalization `process_game_logs`
raises the line-103 NameError before the groupby at line 119, so it never
builds the per-team partition and never returns any sequence of rows,
ordered or otherwise. -/
theorem C3_order_amended (df : List InputRow) (team : String) (n : Nat) (parsed : String)
    (h : name_normalizer team false false false =
      PyResult.ok (NameResult.name (some parsed))) :
    (process_game_logs df team n).2 = PyResult.raised nameErrorFeatureCols ∧
    ∀ u : Unit, (process_game_logs df team n).2 ≠ PyResult.ok u := by
  have hp := mj_process_raises df team n parsed h
  rw [hp]
  exact ⟨rfl, fun u hu => PyResult.noConfusion hu⟩

/-- Witness for the amended C3 at a concrete frame. -/
theorem C3_order_amended_witness :
    (process_game_logs df3 "duke" 0).2 = PyResult.raised nameErrorFeatureCols ∧
    ∀ u : Unit, (process_game_logs df3 "duke" 0).2 ≠ PyResult.ok u :=
  C3_order_amended df3 "duke" 0 "duke" mj_nn_duke

/-- C4: `name_normalizer` is idempotent on the canonical vocabulary: every
canonical identifier in the codomain of the team alias table normalizes to
itself (its preprocessing pipeline leaves it unchanged and the alias table
maps it to itself). -/
theorem C4_idempotence (v : String) (hv : v ∈ teamValues) :
    name_normalizer v false false false = PyResult.ok (NameResult.name (some v)) :=
  mj_nn_eval v (mj_key_all v hv) (mj_lookup_all v hv)

set_option maxRecDepth 100000 in
/-- Witness for C4 at the canonical identifier "duke". -/
theorem C4_idempotence_witness :
    "duke" ∈ teamValues ∧
    name_normalizer "duke" false false false = PyResult.ok (NameResult.name (some "duke")) :=
  ⟨by decide, C4_idempotence "duke" (by decide)⟩

/-- Counterexample to C5: on the input "st. x st." the first token is
"st.", so the source replaces EVERY occurrence of the substring "st."
with "saint" — including the occurrence that is the last token, which the
claim says should be expanded to "state" (and which the claim's
"no other occurrence is altered" clause says should at most stay "st."). -/
theorem C5_stdot_counterexample :
    stStep "st. x st." = "saint x saint" ∧
    stStep "st. x st." ≠ "saint x state" := by
  refine ⟨by decide, by decide⟩

/-- C5 amended: the "st." step selects one replacement word — "saint" when
the first whitespace token is exactly "st.", otherwise "state" when the
last token is exactly "st." — and applies it to every occurrence of the
substring "st." in the string; otherwise the string is unchanged. -/
theorem C5_stdot_amended (s : String) : stStep s = stStepSpecAmended s := by
  unfold stStep stStepSpecAmended
  cases h1 : containsSub s "st." <;>
    cases h2 : (splitWsL s.data).head? == some ("st.".data) <;>
      cases h3 : (splitWsL s.data).getLast? == some ("st.".data) <;>
        simp [h1, h2, h3]

/-- Counterexample to C6: on the token list ["ncaa", "duke"], which does
not END with "ncaa", the source still sets the tournament flag (the test
is membership anywhere in the list) and drops the LAST token "duke",
producing the key "ncaa" — where the claim demands flag 0 and the key
"ncaa-duke". -/
theorem C6_ncaa_counterexample :
    tourneyStep ["ncaa", "duke"] = ("ncaa", 1) ∧
    name_normalizer "ncaa duke" false true true = PyResult.ok (NameResult.both none 1) ∧
    tourneyStep ["ncaa", "duke"] ≠ ("ncaa-duke", 0) := by
  have hkf : teamKeyFlag "ncaa duke" = ("ncaa", 1) := by decide
  have hl : teamLookup "ncaa" = none := by decide
  refine ⟨by decide, ?_, by decide⟩
  unfold name_normalizer
  rw [hkf]
  simp only []
  rw [hl]
  simp

/-- C6 amended: the "made tournament" flag is 1 and the last token is
dropped from the lookup key exactly when "ncaa" occurs ANYWHERE in the
preprocessed token sequence; otherwise the flag is 0 and all tokens are
kept. -/
theorem C6_ncaa_amended (name : String) :
    name_normalizer name false true true =
      PyResult.ok (NameResult.both (teamLookup (teamKey name))
        (if (teamTokens name).contains "ncaa" then 1 else 0)) ∧
    teamKey name = String.intercalate "-"
      (if (teamTokens name).contains "ncaa" then (teamTokens name).dropLast
       else teamTokens name) := by
  have hflag : (teamKeyFlag name).2 =
      (if (teamTokens name).contains "ncaa" then 1 else 0) := by
    unfold teamKeyFlag tourneyStep
    cases hm : (teamTokens name).contains "ncaa" <;> simp [hm]
  have hkey : (teamKeyFlag name).1 = String.intercalate "-"
      (if (teamTokens name).contains "ncaa" then (teamTokens name).dropLast
       else teamTokens name) := by
    unfold teamKeyFlag tourneyStep
    cases hm : (teamTokens name).contains "ncaa" <;> simp [hm]
  constructor
  · unfold name_normalizer teamKey
    cases hl : teamLookup (teamKeyFlag name).1 <;> simp [hl, hflag]
  · unfold teamKey
    exact hkey

/-- C7: the team normalizer's KeyError message interpolates the failed
lookup key, but `conf_name_normalizer`'s message string lacks the `f`
prefix (parser.py line 681), so the raised message is the literal
placeholder text and does NOT carry the failed key — contradicting the
claim for the conference normalizer.  The sentinel behavior with
`ignore_errors` set holds for both. -/
theorem C7_conf_error_message_bug :
    conf_name_normalizer "Fictional Conference" false = PyResult.raised errConfMsg ∧
    containsSub errConfMsg "fictional conference" = false ∧
    conf_name_normalizer "Fictional Conference" true = PyResult.ok none ∧
    name_normalizer "Fictional University" false false false =
      PyResult.raised (errTeamMsg "fictional-university") ∧
    containsSub (errTeamMsg "fictional-university") "fictional-university" = true ∧
    name_normalizer "Fictional University" false false true =
      PyResult.ok (NameResult.name none) := by
  have hck : confKey "Fictional Conference" = "fictional conference" := by decide
  have hcl : confLookup "fictional conference" = none := by decide
  have htk : teamKeyFlag "Fictional University" = ("fictional-university", 0) := by decide
  have htl : teamLookup "fictional-university" = none := by decide
  refine ⟨?_, by decide, ?_, ?_, by decide, ?_⟩
  · unfold conf_name_normalizer
    rw [hck, hcl]
    simp
  · unfold conf_name_normalizer
    rw [hck, hcl]
    simp
  · unfold name_normalizer
    rw [htk]
    simp only []
    rw [htl]
    simp
  · unfold name_normalizer
    rw [htk]
    simp only []
    rw [htl]
    simp

/-- Counterexample to C8: the call has a side effect on every path that
passes name normalization — it mutates the caller's frame in place
(process.py lines 85-92) into its augmented form, with a strictly larger
column set and `Date` values replaced by their parsed form, before
raising the line-103 NameError. -/
theorem C8_mutation_counterexample :
    process_game_logs df3 "duke" 10 =
      (FrameState.augmented (df3.map augmentRow), PyResult.raised nameErrorFeatureCols) ∧
    FrameState.augmented (df3.map augmentRow) ≠ FrameState.unchanged df3 ∧
    augColumns ≠ inputColumns ∧
    (augmentRow (mkRowT "2018-01-01" "H" "duke" "kansas" 70 60 1)).DateParsed
      = 20180101 := by
  refine ⟨mj_process_raises df3 "duke" 10 "duke" mj_nn_duke, ?_, by decide, by decide⟩
  intro hu
  exact FrameState.noConfusion hu

/-- C8 amended: whenever name normalization succeeds, the call mutates
the caller's frame into exactly its augmented form — the four derived
columns appended and `Date` parsed in place — before raising the line-103
NameError, while the values of every other pre-existing column (team,
opponent, venue, points, outcome, statistics) are left unchanged. -/
theorem C8_mutation_amended (df : List InputRow) (team : String) (n : Nat) (parsed : String)
    (h : name_normalizer team false false false =
      PyResult.ok (NameResult.name (some parsed))) :
    (process_game_logs df team n).1 = FrameState.augmented (df.map augmentRow) ∧
    (df.map augmentRow).map AugRow.Team = df.map InputRow.Team ∧
    (df.map augmentRow).map AugRow.Opponent = df.map InputRow.Opponent ∧
    (df.map augmentRow).map AugRow.Location = df.map InputRow.Location ∧
    (df.map augmentRow).map AugRow.TeamPoints = df.map InputRow.TeamPoints ∧
    (df.map augmentRow).map AugRow.OpponentPoints = df.map InputRow.OpponentPoints ∧
    (df.map augmentRow).map AugRow.team_won = df.map InputRow.team_won ∧
    (df.map augmentRow).map AugRow.stats = df.map InputRow.stats := by
  have hp := mj_process_raises df team n parsed h
  refine ⟨by rw [hp], ?_, ?_, ?_, ?_, ?_, ?_, ?_⟩ <;>
    exact mj_map_proj augmentRow _ _ (fun a => rfl) df

/-- Witness for the amended C8 at a concrete call. -/
theorem C8_mutation_amended_witness :
    (process_game_logs df3 "duke" 10).1 = FrameState.augmented (df3.map augmentRow) ∧
    (df3.map augmentRow).map AugRow.Team = df3.map InputRow.Team ∧
    (df3.map augmentRow).map AugRow.Opponent = df3.map InputRow.Opponent ∧
    (df3.map augmentRow).map AugRow.Location = df3.map InputRow.Location ∧
    (df3.map augmentRow).map AugRow.TeamPoints = df3.map InputRow.TeamPoints ∧
    (df3.map augmentRow).map AugRow.OpponentPoints = df3.map InputRow.OpponentPoints ∧
    (df3.map augmentRow).map AugRow.team_won = df3.map InputRow.team_won ∧
    (df3.map augmentRow).map AugRow.stats = df3.map InputRow.stats :=
  C8_mutation_amended df3 "duke" 10 "duke" mj_nn_duke

/-- Counterexample to C9: on a frame with no duke rows (and "duke"
normalizing fine), the call does not yield an empty result — it raises
the line-103 NameError before the groupby at line 119, so the no-data
branch (the `return None` of line 124) is never reached and the call
never completes normally. -/
theorem C9_none_counterexample :
    process_game_logs dfK "duke" 10 =
      (FrameState.augmented (dfK.map augmentRow), PyResult.raised nameErrorFeatureCols) ∧
    (process_game_logs dfK "duke" 10).2 ≠ PyResult.ok () := by
  have h := mj_process_raises dfK "duke" 10 "duke" mj_nn_duke
  refine ⟨h, ?_⟩
  rw [h]
  decide

/-- C9 amended: the absent-team branch is unreachable: every call that
passes name normalization raises the line-103 NameError before the
groupby at line 119, whether or not the team has rows in the frame — and
this outcome is distinct from the unknown-name failure, which raises the
normalization KeyError before any mutation and leaves the frame
unchanged. -/
theorem C9_none_amended (df : List InputRow) (team : String) (n : Nat) (parsed : String)
    (h : name_normalizer team false false false =
      PyResult.ok (NameResult.name (some parsed))) :
    process_game_logs df team n =
      (FrameState.augmented (df.map augmentRow), PyResult.raised nameErrorFeatureCols) ∧
    process_game_logs df team n ≠
      (FrameState.unchanged df, PyResult.raised (errTeamMsg (teamKey team))) := by
  have hp := mj_process_raises df team n parsed h
  refine ⟨hp, ?_⟩
  rw [hp]
  intro hu
  injection hu with h1 h2
  exact FrameState.noConfusion h1

/-- Witness for the amended C9: duke normalizes but has no rows in `dfK`. -/
theorem C9_none_amended_witness :
    process_game_logs dfK "duke" 10 =
      (FrameState.augmented (dfK.map augmentRow), PyResult.raised nameErrorFeatureCols) ∧
    process_game_logs dfK "duke" 10 ≠
      (FrameState.unchanged dfK, PyResult.raised (errTeamMsg (teamKey "duke"))) :=
  C9_none_amended dfK "duke" 10 "duke" mj_nn_duke

/-- C10 (implicit): with `ignore_errors=True`, `made_tourney=True` and
`return_both=False`, a lookup miss still returns the integer tournament
flag (0 or 1), never the absent-value sentinel — so an unknown name is
indistinguishable in the result from a known team that did not make the
tournament. -/
theorem C10_flag_on_unknown (name : String)
    (h : teamLookup (teamKey name) = none) :
    name_normalizer name true false true =
      PyResult.ok (NameResult.flag (teamKeyFlag name).2) ∧
    ((teamKeyFlag name).2 = 0 ∨ (teamKeyFlag name).2 = 1) := by
  constructor
  · unfold teamKey at h
    unfold name_normalizer
    rw [h]
    simp
  · unfold teamKeyFlag tourneyStep
    cases hm : (teamTokens name).contains "ncaa" <;> simp [hm]

/-- Witness for C10 at the unknown name "fictional university" (whose
flag, 0, coincides with the flag of the known non-tournament name
"duke"). -/
theorem C10_flag_on_unknown_witness :
    (name_normalizer "fictional university" true false true =
      PyResult.ok (NameResult.flag (teamKeyFlag "fictional university").2) ∧
    ((teamKeyFlag "fictional university").2 = 0 ∨
      (teamKeyFlag "fictional university").2 = 1)) :=
  C10_flag_on_unknown "fictional university"
    (by have hk : teamKey "fictional university" = "fictional-university" := by decide
        rw [hk]
        decide)
